import Mathlib

/-!
# Verification of `add_gsi.py`

A shallow embedding of the Lambda function `add_gsi.py`, which adds two
Global Secondary Indexes (GSIs) to a DynamoDB table and reports status back
to CloudFormation through a callback URL.

Modelling conventions:

* Python exceptions are modelled by `Except PyError`; a raising computation
  returns `.error e`, a normal return is `.ok v`.
* External effects (the DynamoDB control API, `time.sleep`, the HTTP PUT)
  are modelled by oracle parameters describing the outcome of each call;
  the functions compute the observable result (return value / raised
  exception / trace of performed actions) from those oracles.
* Python float arithmetic in the backoff formula
  `math.floor(wait_seconds ** (retry / wait_seconds))` is idealised by real
  arithmetic (`Nat.floor` of a real `rpow`), matching the formula the
  spec states.
-/

namespace AddGsi

/-- A Python exception value, as far as this module observes it: either an
ordinary exception carrying a message (`Exception('...')`, `KeyError`, ...)
or the `UnboundLocalError` raised when a local variable is read before
assignment. -/
inductive PyError where
  | exception (msg : String)
  | unboundLocal (name : String)
deriving DecidableEq

/-- `charsMatchAt pat l`: does the character list `l` start with `pat`?
(Helper for the Python substring test `pat in s`.) -/
def charsMatchAt : List Char → List Char → Bool
  | [], _ => true
  | _ :: _, [] => false
  | p :: ps, c :: cs => p == c && charsMatchAt ps cs

/-- `hasSub pat l`: does `l` contain `pat` as a contiguous sublist? -/
def hasSub (pat : List Char) : List Char → Bool
  | [] => pat.isEmpty
  | l@(_ :: t) => charsMatchAt pat l || hasSub pat t

/-- The Python membership test on strings, `pat in s`. -/
def strContains (s pat : String) : Bool := hasSub pat.data s.data

/-!
## `check_table_status` (src/add_gsi.py lines 30–55)

The `describe_table` call itself is outside the `try`; the `try` block
wraps reading `response['Table']['TableStatus']` and comparing it to
`'ACTIVE'`.  The parameter `statusField` is the outcome of that read:
`.ok s` when the response carries the string `s` as the table status,
`.error e` when reading the field raises (e.g. a `KeyError` because the
response has no such field).

Crucially, the statement `logger.debug(table_status)` on line 54 sits
*after* the `try/except`.  When the read raised, the local `table_status`
was never assigned, so evaluating the argument of that `logger.debug`
raises `UnboundLocalError` — the `except` branch's `table_active = True`
never reaches the `return`.
-/

/-- Embedding of `check_table_status`. -/
def check_table_status (statusField : Except PyError String) : Except PyError Bool :=
  match statusField with
  | .ok s =>
    -- table_active = (table_status == 'ACTIVE'); logger.debug(table_status) succeeds
    .ok (s == "ACTIVE")
  | .error _ =>
    -- except branch sets table_active = True, but the subsequent
    -- logger.debug(table_status) reads the unbound local and raises
    .error (.unboundLocal "table_status")

/-!
## `check_gsi_status` (src/add_gsi.py lines 58–83)

Here the whole body after `describe_table` is inside the `try`.  The
parameter `gsiField` is the outcome of evaluating
`response['Table']` / the index-status list:
`.error e` when any of those reads raises, `.ok none` when
`'GlobalSecondaryIndexes'` is absent from the table description, and
`.ok (some l)` when the indexes report the status strings `l`.
-/

/-- Embedding of `check_gsi_status`. -/
def check_gsi_status (gsiField : Except PyError (Option (List String))) :
    Except PyError Bool :=
  match gsiField with
  | .ok (some statuses) => .ok (statuses.all fun st => st == "ACTIVE")
  | .ok none => .ok true          -- 'No GSIs present, continuing...'
  | .error _ => .ok true          -- except: gsi_active = True

/-!
## Backoff arithmetic of `table_active_wait` (src/add_gsi.py lines 101–109)

Each iteration of the two polling loops executes
```
if retry > wait_seconds: retry = wait_seconds
exp_wait = math.floor(wait_seconds ** (retry / wait_seconds))
time.sleep(exp_wait)
```
-/

/-- The capping step `if retry > wait_seconds: retry = wait_seconds`. -/
def cappedRetry (base retry : Nat) : Nat :=
  if retry > base then base else retry

/-- The wait computed by one loop iteration:
`math.floor(wait_seconds ** (retry / wait_seconds))` applied to the capped
retry counter (real-number idealisation of the Python float arithmetic). -/
noncomputable def exp_wait (base retry : Nat) : Nat :=
  Nat.floor ((base : ℝ) ^ ((cappedRetry base retry : ℝ) / (base : ℝ)))

/-!
## The polling loops of `table_active_wait` (src/add_gsi.py lines 98–125)

Both `while` loops of `table_active_wait` have the same shape: sleep, poll
the status, leave the loop as soon as the poll reports active.  `poll n`
is the outcome of the `n`-th status check (counting from 0).  The Python
loop has no bound; `fuel` is an observation horizon: `statusPollLoop poll
fuel n = some k` means the loop, entered with `n` checks already
performed, stops after a total of `k` checks; `none` means it is still
running after the horizon is exhausted. -/
def statusPollLoop (poll : Nat → Bool) : Nat → Nat → Option Nat
  | 0, _ => none
  | fuel + 1, n => if poll n then some (n + 1) else statusPollLoop poll fuel (n + 1)

/-- Embedding of `table_active_wait`: the table-status loop followed by the
GSI-status loop; returns the number of checks each loop performed (within
the respective horizons). -/
def table_active_wait (tablePoll gsiPoll : Nat → Bool) (tableFuel gsiFuel : Nat) :
    Option (Nat × Nat) :=
  match statusPollLoop tablePoll tableFuel 0 with
  | none => none
  | some k1 =>
    match statusPollLoop gsiPoll gsiFuel 0 with
    | none => none
    | some k2 => some (k1, k2)

/-!
## `function_retry` (src/add_gsi.py lines 128–161)

The wrapper produced by the decorator runs
```
retry = 0
while retry <= num_retries:
    if context.get_remaining_time_in_millis() <= 10000:
        raise Exception('Function was about to timeout')
    try:
        return fn(*args, **kwargs)
    except Exception as e:
        if 'already exists' in str(e):
            return
        time.sleep(wait_seconds)
        retry += 1
        if retry > num_retries: log failure
```
and falls through to an implicit `return None` when the loop guard fails.

Oracles: `remaining i` is the value `get_remaining_time_in_millis()`
returns at the start of iteration `i`, and `attempt i` the outcome of the
`i`-th call of the wrapped function (`none` = returned normally, `some
msg` = raised an exception whose `str` is `msg`).  Within one run the
iteration index always equals the `retry` counter, because the loop body
either returns or increments `retry` by one.
-/

/-- How one run of the retry wrapper ended. -/
inductive WOutcome where
  | timeout        -- raised Exception('Function was about to timeout')
  | fnReturned     -- the wrapped function returned normally
  | alreadyExists  -- an attempt raised an 'already exists' error; returned None
  | exhausted      -- the loop guard `retry <= num_retries` failed; returned None
deriving DecidableEq

/-- Observable result of one run of the retry wrapper: how it ended, how
many times the wrapped function was invoked, and how many times
`time.sleep(wait_seconds)` was executed. -/
structure WResult where
  outcome : WOutcome
  attempts : Nat
  sleeps : Nat
deriving DecidableEq

/-- The `while retry <= num_retries` loop, entered with the counter at
`retry`.  `fuel` encodes the loop guard: since `retry` starts at 0 and
increases by exactly 1 per iteration, the guard `retry <= num_retries`
holds exactly while `num_retries + 1 - retry > 0`, so the loop is run
with `fuel = num_retries + 1 - retry`; `fuel = 0` is the guard failing
(the exhaustion fall-through, which returns `None`). -/
def wrapperLoop (remaining : Nat → Nat) (attempt : Nat → Option String) :
    Nat → Nat → WResult
  | 0, retry => ⟨.exhausted, retry, retry⟩
  | fuel + 1, retry =>
    if remaining retry ≤ 10000 then
      ⟨.timeout, retry, retry⟩
    else
      match attempt retry with
      | none => ⟨.fnReturned, retry + 1, retry⟩
      | some msg =>
        if strContains msg "already exists" then
          ⟨.alreadyExists, retry + 1, retry⟩
        else
          wrapperLoop remaining attempt fuel (retry + 1)

/-- Embedding of the wrapper returned by `function_retry`, with the retry
budget `num_retries` (the source default is 5). -/
def function_retry (remaining : Nat → Nat) (attempt : Nat → Option String)
    (num_retries : Nat) : WResult :=
  wrapperLoop remaining attempt (num_retries + 1) 0

/-- What the caller of the wrapped function observes: a raised exception
only on the timeout path; every other outcome returns normally (the
wrapped creation functions return `None`). -/
def wrapperToExcept (w : WResult) : Except PyError Unit :=
  match w.outcome with
  | .timeout => .error (.exception "Function was about to timeout")
  | _ => .ok ()

/-!
## `send_response` (src/add_gsi.py lines 278–321)
-/

/-- The fields of the CloudFormation custom-resource event that
`send_response` and `lambda_handler` read. -/
structure CfnEvent where
  StackId : String
  RequestId : String
  LogicalResourceId : String
  ResponseURL : String
deriving DecidableEq

/-- The part of the Lambda context object that `send_response` reads. -/
structure LambdaContext where
  log_stream_name : String
deriving DecidableEq

/-- Lower-case hexadecimal digit. -/
def hexDigit (n : Nat) : Char :=
  if n < 10 then Char.ofNat (48 + n) else Char.ofNat (87 + n)

/-- Four-digit lower-case hexadecimal rendering of `n < 0x10000`. -/
def hex4 (n : Nat) : String :=
  String.mk [hexDigit (n / 4096 % 16), hexDigit (n / 256 % 16),
             hexDigit (n / 16 % 16), hexDigit (n % 16)]

/-- JSON escaping of one character, as `json.dumps` (default
`ensure_ascii=True`) performs it: printable ASCII other than `"` and `\`
is kept, the short escapes are used for the usual control characters, and
everything else becomes `\uXXXX` (a surrogate pair beyond the BMP). -/
def jsonEscapeChar (c : Char) : String :=
  if c = '"' then "\\\""
  else if c = '\\' then "\\\\"
  else if c.toNat = 8 then "\\b"
  else if c.toNat = 9 then "\\t"
  else if c.toNat = 10 then "\\n"
  else if c.toNat = 12 then "\\f"
  else if c.toNat = 13 then "\\r"
  else if 32 ≤ c.toNat ∧ c.toNat ≤ 126 then String.mk [c]
  else if c.toNat < 65536 then "\\u" ++ hex4 c.toNat
  else
    let u := c.toNat - 65536
    "\\u" ++ hex4 (55296 + u / 1024) ++ "\\u" ++ hex4 (56320 + u % 1024)

/-- A JSON string literal as produced by `json.dumps`. -/
def jsonString (s : String) : String :=
  "\"" ++ String.join (s.data.map jsonEscapeChar) ++ "\""

/-- `json.dumps` of a flat object with string values, in insertion order
(Python's default separators are `', '` and `': '`). -/
def jsonDumps (fields : List (String × String)) : String :=
  "\x7b" ++ String.intercalate ", "
    (fields.map fun p => jsonString p.1 ++ ": " ++ jsonString p.2) ++ "\x7d"

/-- The `reason` actually used: the Python guard `if not reason` replaces
both `None` (the default) and the empty string by the CloudWatch pointer. -/
def effectiveReason (context : LambdaContext) (reason : Option String) : String :=
  match reason with
  | none => "See the details in CloudWatch Log Stream: " ++ context.log_stream_name
  | some r =>
    if r = "" then "See the details in CloudWatch Log Stream: " ++ context.log_stream_name
    else r

/-- The dictionary `send_response` passes to `json.dumps`, in source
order. -/
def response_fields (context : LambdaContext) (event : CfnEvent)
    (status : String) (reason : Option String) : List (String × String) :=
  [("Status", status),
   ("Reason", effectiveReason context reason),
   ("PhysicalResourceId", context.log_stream_name),
   ("StackId", event.StackId),
   ("RequestId", event.RequestId),
   ("LogicalResourceId", event.LogicalResourceId)]

/-- An outbound HTTP request as `urllib.request.Request` is constructed in
`send_response`.  `body` is the dictionary serialised into the request
data; `bodyText` its `json.dumps` serialisation (whose UTF-8 encoding is
the request data); `headers` the header dictionary, with the integer
`content-length` value rendered as a numeral. -/
structure HttpRequest where
  url : String
  method : String
  body : List (String × String)
  bodyText : String
  headers : List (String × String)
deriving DecidableEq

/-- The request object `send_response` builds (lines 293–314). -/
def send_response_request (context : LambdaContext) (event : CfnEvent)
    (status : String) (reason : Option String) : HttpRequest :=
  let fields := response_fields context event status reason
  let bodyText := jsonDumps fields
  { url := event.ResponseURL
    method := "PUT"
    body := fields
    bodyText := bodyText
    headers := [("content-type", ""),
                ("content-length", toString bodyText.utf8ByteSize)] }

/-- Embedding of a full run of `send_response`.  `urlopenResult` is the
outcome of the `urllib.request.urlopen(request)` call.  The call is inside
`try: ... except Exception as e: logger.exception(...)`, so its failure is
logged and swallowed; the function returns normally either way, and its
value is the request that was submitted. -/
def send_response_run (context : LambdaContext) (event : CfnEvent)
    (status : String) (reason : Option String)
    (urlopenResult : Except PyError Unit) : Except PyError HttpRequest :=
  let request := send_response_request context event status reason
  match urlopenResult with
  | .ok _ => .ok request        -- 'Status response sent!'
  | .error _ => .ok request     -- logger.exception(...): swallowed

/-- Forget the value of a Python call, keeping only whether it raised. -/
def toUnit : Except PyError α → Except PyError Unit
  | .ok _ => .ok ()
  | .error e => .error e

/-!
## `lambda_handler` (src/add_gsi.py lines 324–356)

```
table_active_wait(TABLE_NAME); create_gsi_1(context)
table_active_wait(TABLE_NAME); create_gsi_2(context)
table_active_wait(TABLE_NAME)
try: send_response(context, event, status='SUCCESS')
except:
    logging.error('Failed to send the success message')
    send_response(context, event, status='FAILURE')
```

Each step's externally determined outcome is a field of `HandlerEnv`.
`lambda_handler` returns the trace of steps it started, in order, together
with its own outcome (an uncaught exception propagates).
-/

/-- One top-level step of `lambda_handler`, as recorded in the trace the
moment the handler starts it. -/
inductive Step where
  | wait                      -- a call of table_active_wait
  | create1                   -- create_gsi_1(context)
  | create2                   -- create_gsi_2(context)
  | notify (status : String)  -- send_response(context, event, status=...)
deriving DecidableEq

/-- Outcomes of the six external calls `lambda_handler` makes, in program
order. -/
structure HandlerEnv where
  wait1 : Except PyError Unit
  create1 : Except PyError Unit
  wait2 : Except PyError Unit
  create2 : Except PyError Unit
  wait3 : Except PyError Unit
  sendSuccess : Except PyError Unit
  sendFailure : Except PyError Unit

/-- Embedding of `lambda_handler`: the ordered trace of steps started, and
the handler's own outcome.  Only the SUCCESS notification is guarded by a
`try`; an exception from any other step (including the fallback FAILURE
notification) propagates. -/
def lambda_handler (env : HandlerEnv) : List Step × Except PyError Unit :=
  match env.wait1 with
  | .error e => ([.wait], .error e)
  | .ok _ =>
    match env.create1 with
    | .error e => ([.wait, .create1], .error e)
    | .ok _ =>
      match env.wait2 with
      | .error e => ([.wait, .create1, .wait], .error e)
      | .ok _ =>
        match env.create2 with
        | .error e => ([.wait, .create1, .wait, .create2], .error e)
        | .ok _ =>
          match env.wait3 with
          | .error e => ([.wait, .create1, .wait, .create2, .wait], .error e)
          | .ok _ =>
            match env.sendSuccess with
            | .ok _ =>
              ([.wait, .create1, .wait, .create2, .wait, .notify "SUCCESS"], .ok ())
            | .error _ =>
              -- bare `except:`: log, then send the FAILURE notice (unguarded)
              match env.sendFailure with
              | .ok _ =>
                ([.wait, .create1, .wait, .create2, .wait,
                  .notify "SUCCESS", .notify "FAILURE"], .ok ())
              | .error e =>
                ([.wait, .create1, .wait, .create2, .wait,
                  .notify "SUCCESS", .notify "FAILURE"], .error e)

/-- The environment `lambda_handler` actually runs in: the two creation
steps are the retry wrapper applied to the respective creation function
with the source defaults (`num_retries=5`), driven by the remaining-time
and attempt oracles of that wrapper run. -/
def handler_env (w1 w2 w3 : Except PyError Unit)
    (rem1 : Nat → Nat) (att1 : Nat → Option String)
    (rem2 : Nat → Nat) (att2 : Nat → Option String)
    (sendS sendF : Except PyError Unit) : HandlerEnv :=
  { wait1 := w1
    create1 := wrapperToExcept (function_retry rem1 att1 5)
    wait2 := w2
    create2 := wrapperToExcept (function_retry rem2 att2 5)
    wait3 := w3
    sendSuccess := sendS
    sendFailure := sendF }

/-!
## Concrete oracles used to instantiate the theorems
-/

/-- A remaining-time oracle comfortably above the 10000 ms safety margin. -/
def remOk : Nat → Nat := fun _ => 60000

/-- A remaining-time oracle below the 10000 ms safety margin. -/
def remLow : Nat → Nat := fun _ => 5000

/-- An attempt oracle that always raises an unrelated error. -/
def attFail : Nat → Option String := fun _ => some "ValidationException"

/-- An attempt oracle whose error message reports an existing index. -/
def attExists : Nat → Option String :=
  fun _ => some "Global secondary index already exists on table"

/-- A status oracle reporting active from the third check on. -/
def pollThird : Nat → Bool := fun n => decide (2 ≤ n)

/-!
## Helper lemmas
-/

/-- One failing iteration of the retry loop: remaining time above the
margin, the attempt raises an unrelated error, so the loop sleeps and
moves on with the counter incremented. -/
theorem wrapperLoop_fail_step (remaining : Nat → Nat) (attempt : Nat → Option String)
    (fuel retry : Nat) (hrem : 10000 < remaining retry)
    (msg : String) (hatt : attempt retry = some msg)
    (hmsg : strContains msg "already exists" = false) :
    wrapperLoop remaining attempt (fuel + 1) retry
      = wrapperLoop remaining attempt fuel (retry + 1) := by
  simp [wrapperLoop, Nat.not_le.mpr hrem, hatt, hmsg]

/-- Running the retry loop through `d` failing iterations. -/
theorem wrapperLoop_advance (remaining : Nat → Nat) (attempt : Nat → Option String)
    (fuel : Nat) : ∀ d k,
    (∀ j, k ≤ j → j < k + d → 10000 < remaining j ∧
        ∃ m, attempt j = some m ∧ strContains m "already exists" = false) →
    wrapperLoop remaining attempt (d + fuel) k
      = wrapperLoop remaining attempt fuel (k + d) := by
  intro d
  induction d with
  | zero => intro k _; simp
  | succ d ih =>
    intro k hk
    obtain ⟨hrem, m, hatt, hmsg⟩ := hk k (Nat.le_refl k) (by omega)
    have hstep := wrapperLoop_fail_step remaining attempt (d + fuel) k hrem m hatt hmsg
    have h1 : d + 1 + fuel = d + fuel + 1 := by omega
    rw [h1, hstep, ih (k + 1) (fun j h1 h2 => hk j (by omega) (by omega))]
    have h2 : k + 1 + d = k + (d + 1) := by omega
    rw [h2]

/-- When every attempt fails with an unrelated error and the time budget
stays above the margin, the wrapper exhausts its budget: `num_retries + 1`
attempts, a sleep after each, and a normal return. -/
theorem function_retry_all_fail (remaining : Nat → Nat) (attempt : Nat → Option String)
    (n : Nat)
    (hrem : ∀ i, 10000 < remaining i)
    (hatt : ∀ i, ∃ m, attempt i = some m ∧ strContains m "already exists" = false) :
    function_retry remaining attempt n = ⟨.exhausted, n + 1, n + 1⟩ := by
  have h := wrapperLoop_advance remaining attempt 0 (n + 1) 0
    (fun j _ _ => ⟨hrem j, hatt j⟩)
  simpa [function_retry, wrapperLoop] using h

/-- A polling loop result is stable under enlarging the observation
horizon. -/
theorem statusPollLoop_mono (poll : Nat → Bool) :
    ∀ fuel fuel' n k, statusPollLoop poll fuel n = some k → fuel ≤ fuel' →
    statusPollLoop poll fuel' n = some k := by
  intro fuel
  induction fuel with
  | zero => intro fuel' n k h; simp [statusPollLoop] at h
  | succ fuel ih =>
    intro fuel' n k h hle
    obtain ⟨f, rfl⟩ : ∃ f, fuel' = f + 1 := ⟨fuel' - 1, by omega⟩
    by_cases hp : poll n
    · simp [statusPollLoop, hp] at h ⊢; exact h
    · simp [statusPollLoop, hp] at h ⊢
      exact ih f (n + 1) k h (by omega)

/-- The polling loop stops within the horizon as soon as some check in
range reports active. -/
theorem statusPollLoop_terminates (poll : Nat → Bool) :
    ∀ fuel n, (∃ j, j < fuel ∧ poll (n + j) = true) →
    ∃ k, statusPollLoop poll fuel n = some k := by
  intro fuel
  induction fuel with
  | zero => intro n h; obtain ⟨j, hj, _⟩ := h; omega
  | succ fuel ih =>
    intro n h
    by_cases hp : poll n
    · exact ⟨n + 1, by simp [statusPollLoop, hp]⟩
    · obtain ⟨j, hj, hpj⟩ := h
      obtain ⟨j', rfl⟩ : ∃ j', j = j' + 1 := by
        rcases j with _ | j'
        · exact absurd hpj (by simpa using hp)
        · exact ⟨j', rfl⟩
      obtain ⟨k, hk⟩ := ih (n + 1)
        ⟨j', by omega, by rw [show n + 1 + j' = n + (j' + 1) from by omega]; exact hpj⟩
      exact ⟨k, by simp [statusPollLoop, hp, hk]⟩

/-- The capping step is monotone in the retry counter. -/
theorem cappedRetry_mono (base r1 r2 : Nat) (h : r1 ≤ r2) :
    cappedRetry base r1 ≤ cappedRetry base r2 := by
  unfold cappedRetry; split <;> split <;> omega

/-!
## Claim theorems
-/

/-- C1: when every attempt of the wrapped creation function raises an
error whose message does not contain 'already exists' and the remaining
time stays above 10000 ms before each attempt, the retry wrapper sleeps
between attempts, stops after exhausting `num_retries`, and returns
normally without raising; consequently `lambda_handler` (with the waits
and the notification succeeding) proceeds to the notification step, sends
exactly the SUCCESS notification, and finishes normally. -/
theorem retry_exhaustion_silent_success
    (rem1 rem2 : Nat → Nat) (att1 att2 : Nat → Option String) (n1 : Nat)
    (w1 w2 w3 sendS sendF : Except PyError Unit)
    (hrem1 : ∀ i, 10000 < rem1 i)
    (hatt1 : ∀ i, ∃ m, att1 i = some m ∧ strContains m "already exists" = false)
    (hrem2 : ∀ i, 10000 < rem2 i)
    (hatt2 : ∀ i, ∃ m, att2 i = some m ∧ strContains m "already exists" = false)
    (hw1 : w1 = .ok ()) (hw2 : w2 = .ok ()) (hw3 : w3 = .ok ())
    (hs : sendS = .ok ()) :
    (function_retry rem1 att1 n1).outcome = .exhausted ∧
    0 < (function_retry rem1 att1 n1).sleeps ∧
    (function_retry rem1 att1 n1).attempts = n1 + 1 ∧
    (lambda_handler (handler_env w1 w2 w3 rem1 att1 rem2 att2 sendS sendF)).1
      = [.wait, .create1, .wait, .create2, .wait, .notify "SUCCESS"] ∧
    (lambda_handler (handler_env w1 w2 w3 rem1 att1 rem2 att2 sendS sendF)).2
      = .ok () := by
  have h1 := function_retry_all_fail rem1 att1 n1 hrem1 hatt1
  have h5 := function_retry_all_fail rem1 att1 5 hrem1 hatt1
  have h5' := function_retry_all_fail rem2 att2 5 hrem2 hatt2
  subst hw1; subst hw2; subst hw3; subst hs
  refine ⟨by rw [h1], by rw [h1]; exact Nat.succ_pos n1, by rw [h1], ?_, ?_⟩ <;>
    simp [lambda_handler, handler_env, h5, h5', wrapperToExcept]

/-- C1 witness: the always-failing scenario at concrete inputs. -/
theorem retry_exhaustion_silent_success_check :
    (function_retry remOk attFail 5).outcome = .exhausted ∧
    0 < (function_retry remOk attFail 5).sleeps ∧
    (function_retry remOk attFail 5).attempts = 6 ∧
    (lambda_handler (handler_env (.ok ()) (.ok ()) (.ok ())
        remOk attFail remOk attFail (.ok ()) (.ok ()))).1
      = [.wait, .create1, .wait, .create2, .wait, .notify "SUCCESS"] ∧
    (lambda_handler (handler_env (.ok ()) (.ok ()) (.ok ())
        remOk attFail remOk attFail (.ok ()) (.ok ()))).2 = .ok () :=
  retry_exhaustion_silent_success remOk remOk attFail attFail 5
    (.ok ()) (.ok ()) (.ok ()) (.ok ()) (.ok ())
    (fun _ => (by decide : (10000 : Nat) < 60000))
    (fun _ => ⟨"ValidationException", rfl, rfl⟩)
    (fun _ => (by decide : (10000 : Nat) < 60000))
    (fun _ => ⟨"ValidationException", rfl, rfl⟩)
    rfl rfl rfl rfl

/-- C2 (code bug): when reading the status field raises,
`check_gsi_status` does return `True` as the spec says, but
`check_table_status` does not: its `except` branch sets
`table_active = True`, yet the subsequent `logger.debug(table_status)`
on line 54 reads the local `table_status` that was never assigned and
raises `UnboundLocalError`, so the call raises instead of returning.
On a successful read of `'ACTIVE'` it does return `True`. -/
theorem check_status_fail_open_divergence :
    check_table_status (.error (.exception "KeyError")) =
      .error (.unboundLocal "table_status") ∧
    check_gsi_status (.error (.exception "KeyError")) = .ok true ∧
    check_table_status (.ok "ACTIVE") = .ok true :=
  ⟨rfl, rfl, rfl⟩

/-- C3: in `table_active_wait`, the effective retry value is capped at
`base = wait_seconds`; for `r ≤ base` the computed wait time is
`floor(base ^ (r / base))`; and the wait time is monotonically
non-decreasing in the retry count. -/
theorem backoff_formula_capped_monotone (base : Nat) (hbase : 1 ≤ base) :
    (∀ r, cappedRetry base r ≤ base) ∧
    (∀ r, r ≤ base →
        exp_wait base r = Nat.floor ((base : ℝ) ^ ((r : ℝ) / (base : ℝ)))) ∧
    (∀ r1 r2, r1 ≤ r2 → exp_wait base r1 ≤ exp_wait base r2) := by
  refine ⟨fun r => ?_, fun r hr => ?_, fun r1 r2 h => ?_⟩
  · unfold cappedRetry; split <;> omega
  · unfold exp_wait cappedRetry
    rw [if_neg (Nat.not_lt.mpr hr)]
  · unfold exp_wait
    have hb : (1 : ℝ) ≤ (base : ℝ) := by exact_mod_cast hbase
    have hbpos : (0 : ℝ) < (base : ℝ) := by exact_mod_cast Nat.lt_of_lt_of_le Nat.zero_lt_one hbase
    refine Nat.floor_mono (Real.rpow_le_rpow_of_exponent_le hb ?_)
    exact (div_le_div_iff_of_pos_right hbpos).mpr
      (by exact_mod_cast cappedRetry_mono base r1 r2 h)

/-- C3 witness: the backoff facts at the source default `wait_seconds = 15`. -/
theorem backoff_formula_capped_monotone_check :
    cappedRetry 15 20 ≤ 15 ∧
    exp_wait 15 3 = Nat.floor (((15 : Nat) : ℝ) ^ (((3 : Nat) : ℝ) / ((15 : Nat) : ℝ))) ∧
    exp_wait 15 3 ≤ exp_wait 15 7 :=
  ⟨(backoff_formula_capped_monotone 15 (by decide)).1 20,
   (backoff_formula_capped_monotone 15 (by decide)).2.1 3 (by decide),
   (backoff_formula_capped_monotone 15 (by decide)).2.2 3 7 (by decide)⟩

/-- C4: if the loop reaches an attempt at whose start the remaining time
is ≤ 10000 ms, the wrapper raises `Exception('Function was about to
timeout')` at once — `attempts = i` records that the wrapped function was
not invoked on that iteration. -/
theorem retry_timeout_aborts_before_call
    (rem : Nat → Nat) (att : Nat → Option String) (n i : Nat)
    (hi : i ≤ n)
    (hbefore : ∀ j, j < i → 10000 < rem j ∧
        ∃ m, att j = some m ∧ strContains m "already exists" = false)
    (hto : rem i ≤ 10000) :
    function_retry rem att n = ⟨.timeout, i, i⟩ ∧
    wrapperToExcept (function_retry rem att n)
      = .error (.exception "Function was about to timeout") := by
  have hadv := wrapperLoop_advance rem att (n + 1 - i) i 0
    (fun j h1 h2 => hbefore j (by omega))
  have harith : i + (n + 1 - i) = n + 1 := by omega
  rw [harith] at hadv
  obtain ⟨f, hf⟩ : ∃ f, n + 1 - i = f + 1 := ⟨n - i, by omega⟩
  have hrun : function_retry rem att n = ⟨.timeout, i, i⟩ := by
    rw [function_retry, hadv, hf]
    simp [wrapperLoop, hto]
  exact ⟨hrun, by rw [hrun]; rfl⟩

/-- C4 witness: remaining time below the margin at the very first attempt. -/
theorem retry_timeout_aborts_before_call_check :
    function_retry remLow attFail 5 = ⟨.timeout, 0, 0⟩ ∧
    wrapperToExcept (function_retry remLow attFail 5)
      = .error (.exception "Function was about to timeout") :=
  retry_timeout_aborts_before_call remLow attFail 5 0 (by decide)
    (fun j hj => absurd hj (Nat.not_lt_zero j)) (by decide)

/-- C5: if the loop reaches an attempt that raises an error whose message
contains 'already exists', the wrapper returns immediately — a normal
return (`.ok`), no sleep on that iteration (`sleeps = i`) and no further
attempt (`attempts = i + 1`); in particular a second invocation after a
prior successful creation does not raise. -/
theorem retry_already_exists_short_circuit
    (rem : Nat → Nat) (att : Nat → Option String) (n i : Nat) (msg : String)
    (hi : i ≤ n)
    (hbefore : ∀ j, j < i → 10000 < rem j ∧
        ∃ m, att j = some m ∧ strContains m "already exists" = false)
    (hrem : 10000 < rem i)
    (hatt : att i = some msg)
    (hmsg : strContains msg "already exists" = true) :
    function_retry rem att n = ⟨.alreadyExists, i + 1, i⟩ ∧
    wrapperToExcept (function_retry rem att n) = .ok () := by
  have hadv := wrapperLoop_advance rem att (n + 1 - i) i 0
    (fun j h1 h2 => hbefore j (by omega))
  have harith : i + (n + 1 - i) = n + 1 := by omega
  rw [harith] at hadv
  obtain ⟨f, hf⟩ : ∃ f, n + 1 - i = f + 1 := ⟨n - i, by omega⟩
  have hrun : function_retry rem att n = ⟨.alreadyExists, i + 1, i⟩ := by
    rw [function_retry, hadv, hf]
    simp [wrapperLoop, Nat.not_le.mpr hrem, hatt, hmsg]
  exact ⟨hrun, by rw [hrun]; rfl⟩

/-- C5 witness: the first attempt reports an existing index. -/
theorem retry_already_exists_short_circuit_check :
    function_retry remOk attExists 5 = ⟨.alreadyExists, 1, 0⟩ ∧
    wrapperToExcept (function_retry remOk attExists 5) = .ok () :=
  retry_already_exists_short_circuit remOk attExists 5 0
    "Global secondary index already exists on table" (by decide)
    (fun j hj => absurd hj (Nat.not_lt_zero j)) (by decide) rfl rfl

/-- C6: the notification request is always an HTTP PUT to the event's
callback URL whose JSON body holds exactly the fields Status, Reason,
PhysicalResourceId, StackId, RequestId and LogicalResourceId, with the
three correlation ids copied verbatim from the triggering event, and whose
`content-type` header is the empty string. -/
theorem send_response_payload_fields (context : LambdaContext) (event : CfnEvent)
    (status : String) (reason : Option String) :
    (send_response_request context event status reason).method = "PUT" ∧
    (send_response_request context event status reason).url = event.ResponseURL ∧
    (send_response_request context event status reason).body.map Prod.fst
      = ["Status", "Reason", "PhysicalResourceId", "StackId", "RequestId",
         "LogicalResourceId"] ∧
    (send_response_request context event status reason).body.lookup "StackId"
      = some event.StackId ∧
    (send_response_request context event status reason).body.lookup "RequestId"
      = some event.RequestId ∧
    (send_response_request context event status reason).body.lookup "LogicalResourceId"
      = some event.LogicalResourceId ∧
    (send_response_request context event status reason).headers.lookup "content-type"
      = some "" := by
  refine ⟨rfl, rfl, rfl, ?_, ?_, ?_, ?_⟩ <;>
    simp [send_response_request, response_fields, List.lookup]

/-- C7: once the flow reaches the notification step, the handler attempts
exactly one SUCCESS notification, attempts exactly one FAILURE
notification if and only if the SUCCESS send raised, and never attempts
any notification more than once. -/
theorem handler_notification_attempts
    (w1 c1 w2 c2 w3 s f : Except PyError Unit)
    (hw1 : w1 = .ok ()) (hc1 : c1 = .ok ()) (hw2 : w2 = .ok ())
    (hc2 : c2 = .ok ()) (hw3 : w3 = .ok ()) :
    (lambda_handler ⟨w1, c1, w2, c2, w3, s, f⟩).1.count (.notify "SUCCESS") = 1 ∧
    ((lambda_handler ⟨w1, c1, w2, c2, w3, s, f⟩).1.count (.notify "FAILURE") = 1 ↔
      s ≠ .ok ()) ∧
    (lambda_handler ⟨w1, c1, w2, c2, w3, s, f⟩).1.count (.notify "FAILURE") ≤ 1 := by
  subst hw1; subst hc1; subst hw2; subst hc2; subst hw3
  rcases s with e | u
  · rcases f with e' | u' <;> simp [lambda_handler, List.count_cons]
  · rcases u with ⟨⟩; simp [lambda_handler, List.count_cons]

/-- C7 witness: a failing SUCCESS send at concrete inputs. -/
theorem handler_notification_attempts_check :
    (lambda_handler ⟨.ok (), .ok (), .ok (), .ok (), .ok (),
        .error (.exception "connection reset"), .ok ()⟩).1.count
      (.notify "SUCCESS") = 1 ∧
    ((lambda_handler ⟨.ok (), .ok (), .ok (), .ok (), .ok (),
        .error (.exception "connection reset"), .ok ()⟩).1.count
      (.notify "FAILURE") = 1 ↔
      (.error (.exception "connection reset") : Except PyError Unit) ≠ .ok ()) ∧
    (lambda_handler ⟨.ok (), .ok (), .ok (), .ok (), .ok (),
        .error (.exception "connection reset"), .ok ()⟩).1.count
      (.notify "FAILURE") ≤ 1 :=
  handler_notification_attempts (.ok ()) (.ok ()) (.ok ()) (.ok ()) (.ok ())
    (.error (.exception "connection reset")) (.ok ()) rfl rfl rfl rfl rfl

/-- C8: the handler's steps run strictly sequentially in the order
readiness wait, creation 1, readiness wait, creation 2, readiness wait,
notification — the trace of started steps is exactly that sequence
(followed by the fallback FAILURE notification exactly when the SUCCESS
send raised), so the second creation never starts before the wait
preceding it completes and no two creations overlap. -/
theorem handler_sequential_flow
    (w1 c1 w2 c2 w3 s f : Except PyError Unit)
    (hw1 : w1 = .ok ()) (hc1 : c1 = .ok ()) (hw2 : w2 = .ok ())
    (hc2 : c2 = .ok ()) (hw3 : w3 = .ok ()) :
    (lambda_handler ⟨w1, c1, w2, c2, w3, s, f⟩).1
      = [.wait, .create1, .wait, .create2, .wait, .notify "SUCCESS"]
        ++ (match s with
            | .ok _ => []
            | .error _ => [.notify "FAILURE"]) := by
  subst hw1; subst hc1; subst hw2; subst hc2; subst hw3
  rcases s with e | u
  · rcases f with e' | u' <;> rfl
  · rfl

/-- C8 witness: the full success-path trace at concrete inputs. -/
theorem handler_sequential_flow_check :
    (lambda_handler ⟨.ok (), .ok (), .ok (), .ok (), .ok (), .ok (), .ok ()⟩).1
      = [.wait, .create1, .wait, .create2, .wait, .notify "SUCCESS"]
        ++ (match (.ok () : Except PyError Unit) with
            | .ok _ => []
            | .error _ => [.notify "FAILURE"]) :=
  handler_sequential_flow (.ok ()) (.ok ()) (.ok ()) (.ok ()) (.ok ())
    (.ok ()) (.ok ()) rfl rfl rfl rfl rfl

/-- C9: when the status check reports not-active on the first two polls
and active on the third, the polling loop performs exactly three checks
and exits (for any horizon of at least three checks); and the loop
terminates whenever some poll eventually reports active. -/
theorem poll_loop_three_checks_and_terminates
    (poll : Nat → Bool) (N : Nat)
    (h0 : poll 0 = false) (h1 : poll 1 = false) (h2 : poll 2 = true)
    (hN : poll N = true) :
    (∀ fuel, 3 ≤ fuel → statusPollLoop poll fuel 0 = some 3) ∧
    ∃ k, statusPollLoop poll (N + 1) 0 = some k := by
  constructor
  · intro fuel hfuel
    have h3 : statusPollLoop poll 3 0 = some 3 := by
      simp [statusPollLoop, h0, h1, h2]
    exact statusPollLoop_mono poll 3 fuel 0 3 h3 hfuel
  · exact statusPollLoop_terminates poll (N + 1) 0 ⟨N, by omega, by simpa using hN⟩

/-- C9 witness: a table that becomes active on the third poll. -/
theorem poll_loop_three_checks_and_terminates_check :
    statusPollLoop pollThird 5 0 = some 3 :=
  (poll_loop_three_checks_and_terminates pollThird 2 rfl rfl rfl rfl).1 5 (by decide)

/-- C10: `send_response` never propagates a failure of the HTTP PUT
itself — the `urlopen` call is wrapped in a catch-and-log `try/except`,
so the function returns normally for every `urlopen` outcome; hence when
the SUCCESS notification is this send, the handler's fallback FAILURE
notification is never attempted, whatever the other steps did. -/
theorem send_response_swallows_urlopen_error
    (context : LambdaContext) (event : CfnEvent) (status : String)
    (reason : Option String) (urlopenResult : Except PyError Unit)
    (w1 c1 w2 c2 w3 f : Except PyError Unit) :
    send_response_run context event status reason urlopenResult
      = .ok (send_response_request context event status reason) ∧
    (lambda_handler ⟨w1, c1, w2, c2, w3,
        toUnit (send_response_run context event "SUCCESS" reason urlopenResult),
        f⟩).1.count (.notify "FAILURE") = 0 := by
  constructor
  · rcases urlopenResult with e | u <;> rfl
  · rcases urlopenResult with e | u <;>
      rcases w1 with e1 | u1 <;> rcases c1 with e2 | u2 <;>
      rcases w2 with e3 | u3 <;> rcases c2 with e4 | u4 <;>
      rcases w3 with e5 | u5 <;> rfl

end AddGsi
